import Mathlib

set_option autoImplicit false

/-!
Shallow embedding of the resilience layer in `octotools/engine/tgi.py`
(class `ChatTGI`) together with the helpers `is_obj_pydantic` and
`translate_response_format`, and of the cache store contract of
`CachedEngine` (whose implementation lives outside the provided sources).

Python dynamic values are modelled by small inductive types; raised
exceptions are modelled by `Except PyExn`; the remote OpenAI client and the
`json` standard library are modelled as oracle parameters in `Env`.
Machine state threaded through a call is `RunState`: the cache contents and
the number of network invocations performed so far.
-/

/-- JSON-like values: used for dict-valued response formats, for the value
returned by `json.loads`, and for the schema emitted by
`model_json_schema`. -/
inductive JsonV
  | str (s : String)
  | num (n : Int)
  | bool (b : Bool)
  | null
  | arr (xs : List JsonV)
  | obj (fields : List (String × JsonV))

/-- Python exceptions raised by the code paths that the embedding covers.
Every constructor models a subclass of `Exception`, so the blanket
`except Exception` clause in `ChatTGI.generate` catches all of them. -/
inductive PyExn
  | typeError (msg : String)
  | valueError (msg : String)
  | notImplementedError (msg : String)
  | rateLimitError (msg : String)
  | lengthFinishReasonError (msg : String)
      (completionTokens promptTokens totalTokens : Nat)
  | jsonDecodeError (msg : String)
  | validationError (msg : String)
deriving DecidableEq, Repr

/-- The Python expression `type(e).__name__` on a modelled exception. -/
def exnName : PyExn → String
  | .typeError _ => "TypeError"
  | .valueError _ => "ValueError"
  | .notImplementedError _ => "NotImplementedError"
  | .rateLimitError _ => "RateLimitError"
  | .lengthFinishReasonError _ _ _ _ => "LengthFinishReasonError"
  | .jsonDecodeError _ => "JSONDecodeError"
  | .validationError _ => "ValidationError"

/-- The Python expression `str(e)` on a modelled exception. -/
def exnMsg : PyExn → String
  | .typeError m => m
  | .valueError m => m
  | .notImplementedError m => m
  | .rateLimitError m => m
  | .lengthFinishReasonError m _ _ _ => m
  | .jsonDecodeError m => m
  | .validationError m => m

/-- One item of a multimodal content list: `str` entries, `bytes` entries
(image payloads, held as byte values), or a value of any other Python type,
tagged with its type name for the error message. -/
inductive ContentItem
  | text (s : String)
  | image (bytes : List Nat)
  | other (typeName : String)
deriving DecidableEq, Repr

/-- A provider-shaped message part produced by `_format_content`:
either a text dict or an image-url dict. -/
inductive MsgPart
  | textPart (text : String)
  | imageUrlPart (url : String)
deriving DecidableEq, Repr

/-- The standard base64 alphabet used by `base64.b64encode`. -/
def b64Char (n : Nat) : Char :=
  ("ABCDEFGHIJKLMNOPQRSTUVWXYZabcdefghijklmnopqrstuvwxyz0123456789+/").toList.getD n 'A'

/-- Embedding of `base64.b64encode(...).decode("utf-8")` on a byte list:
groups of three bytes become four alphabet characters, with `=` padding
for a final group of one or two bytes. -/
def b64encode : List Nat → String
  | [] => ""
  | [a] =>
      String.mk [b64Char ((a % 256) / 4), b64Char ((a % 4) * 16), '=', '=']
  | [a, b] =>
      String.mk [b64Char ((a % 256) / 4), b64Char ((a % 4) * 16 + (b % 256) / 16),
        b64Char ((b % 16) * 4), '=']
  | a :: b :: c :: rest =>
      String.mk [b64Char ((a % 256) / 4), b64Char ((a % 4) * 16 + (b % 256) / 16),
        b64Char ((b % 16) * 4 + (c % 256) / 64), b64Char (c % 64)] ++ b64encode rest

/-- Escape the characters that `json.dumps` escapes in the strings this
development manipulates (backslash, double quote, and common control
characters). -/
def jsonEscapeChar (c : Char) : String :=
  if c = '\\' then "\\\\"
  else if c = '\"' then "\\\""
  else if c = '\n' then "\\n"
  else if c = '\t' then "\\t"
  else if c = '\r' then "\\r"
  else String.mk [c]

/-- Render a string the way `json.dumps` renders it, quotes included. -/
def jsonDumpsStr (s : String) : String :=
  "\"" ++ String.join (s.toList.map jsonEscapeChar) ++ "\""

/-- Render one formatted message part the way `json.dumps` renders the
corresponding Python dict (insertion order of keys, default separators). -/
def jsonDumpsPart : MsgPart → String
  | .textPart t =>
      "\x7b\"type\": \"text\", \"text\": " ++ jsonDumpsStr t ++ "\x7d"
  | .imageUrlPart u =>
      "\x7b\"type\": \"image_url\", \"image_url\": \x7b\"url\": " ++ jsonDumpsStr u ++ "\x7d\x7d"

/-- Render a list of formatted parts the way `json.dumps` renders the
Python list of dicts. -/
def jsonDumpsParts (ps : List MsgPart) : String :=
  "[" ++ String.intercalate ", " (ps.map jsonDumpsPart) ++ "]"

/-- Embedding of `ChatTGI._format_content`: bytes items become image-url
dicts wrapping the base64 data URL, str items become text dicts unchanged,
and an item of any other type raises ValueError (the loop formats items in
order and stops at the first unsupported one, discarding partial output). -/
def _format_content : List ContentItem → Except PyExn (List MsgPart)
  | [] => .ok []
  | .image bytes :: rest =>
      (_format_content rest).map
        (fun ps => .imageUrlPart ("data:image/jpeg;base64," ++ b64encode bytes) :: ps)
  | .text s :: rest =>
      (_format_content rest).map (fun ps => .textPart s :: ps)
  | .other tn :: _ => .error (.valueError ("Unsupported input type: " ++ tn))

/-- Characterization of one step of `_format_content` on a supported item:
the part it contributes, or none for an unsupported item. -/
def formattedPart : ContentItem → Option MsgPart
  | .text s => some (.textPart s)
  | .image bytes => some (.imageUrlPart ("data:image/jpeg;base64," ++ b64encode bytes))
  | .other _ => none

/-- A strongly-typed (pydantic) response schema: its class name, the value
of `model_json_schema()`, and the behaviour of `model_validate_json` as an
oracle (pydantic is an external library). A successful validation yields
the parsed typed object. -/
structure TypedSchema where
  name : String
  jsonSchema : JsonV
  validate : String → Except PyExn JsonV

/-- The `response_format` argument when present: a pydantic model
(strongly typed), a dict (dynamically typed), or a value of any other
non-str Python type tagged with its type name. -/
inductive RespFormat
  | typed (t : TypedSchema)
  | dyn (d : JsonV)
  | other (typeName : String)

/-- Embedding of `is_obj_pydantic`: `hasattr(obj, "model_json_schema")`
holds exactly for the pydantic schema variant among the modelled types. -/
def is_obj_pydantic : RespFormat → Bool
  | .typed _ => true
  | _ => false

/-- Embedding of `translate_response_format`: absent schema passes through
as None; a pydantic schema (the `is_obj_pydantic` branch) is wrapped as a
json_object descriptor around `model_json_schema()`; a dict is returned
unchanged; any other type raises ValueError. -/
def translate_response_format : Option RespFormat → Except PyExn (Option JsonV)
  | none => .ok none
  | some (.typed t) =>
      .ok (some (.obj [("type", .str "json_object"), ("value", t.jsonSchema)]))
  | some (.dyn d) => .ok (some d)
  | some (.other tn) =>
      .error (.valueError ("Unsupported response format type: " ++ tn))

/-- A Python value that can be returned by a generation call and stored in
the cache: a raw payload string, a dict or list from `json.loads`, or a
parsed pydantic object. -/
inductive PyVal
  | str (s : String)
  | json (j : JsonV)
  | typedObj (schemaName : String) (fields : JsonV)

/-- Operand of the Python `+` occurrences in message construction:
a str, or the list of formatted parts. -/
inductive PyOperand
  | strV (s : String)
  | listV (xs : List MsgPart)
deriving DecidableEq, Repr

/-- Python `+` on the modelled operands: str concatenates with str, list
concatenates with list, and a mixed application raises TypeError. -/
def pyAdd : PyOperand → PyOperand → Except PyExn PyOperand
  | .strV a, .strV b => .ok (.strV (a ++ b))
  | .listV a, .listV b => .ok (.listV (a ++ b))
  | .strV _, .listV _ =>
      .error (.typeError "can only concatenate str (not list) to str")
  | .listV _, .strV _ =>
      .error (.typeError "can only concatenate list (not str) to list")

/-- Python `+` with the `response_format` object on the right: a pydantic
model class, a dict, and any other modelled (non-str) object are rejected
by both `str.__add__` and `list.__add__`, and none of them defines
`__radd__`, so the operation raises TypeError whatever the left operand.
(A plain-str response format lies outside the annotated domain
`BaseModel | dict | None` and is not modelled.) -/
def addRespFormat : PyOperand → RespFormat → Except PyExn PyOperand
  | .strV _, _ =>
      .error (.typeError "can only concatenate str (not object) to str")
  | .listV _, _ =>
      .error (.typeError "can only concatenate list (not object) to list")

/-- Engine configuration fixed at `ChatTGI.__init__` time: the default
system prompt, the model identifier, the multimodal-capability flag, and
the cache-enable flag. -/
structure Engine where
  system_prompt : String
  model_string : String
  is_multimodal : Bool
  enable_cache : Bool
deriving DecidableEq, Repr

/-- Outcome of one invocation of the remote completion endpoint
(`client.chat.completions.create`): either a response whose
`choices[0].message.content` is the given payload string, or a raised
exception (rate limit, token-budget truncation, or any other error). -/
inductive RemoteOutcome
  | success (payload : String)
  | raisesExn (e : PyExn)

/-- External collaborators of the engine, modelled as oracles: the remote
endpoint (indexed by how many network invocations happened before the
call), and `json.loads` from the Python standard library. -/
structure Env where
  remote : Nat → RemoteOutcome
  jsonLoads : String → Except PyExn JsonV

/-- Modelled from the spec: the persistent key-value cache store of
`CachedEngine` (`octotools/engine/base.py`, not among the provided
sources). Spec section 4.1: keys are fingerprint strings, values are
response payloads. -/
abbrev Cache := List (String × PyVal)

/-- Modelled from the spec: `CachedEngine._check_cache` — a pure lookup
returning the stored payload, or None when the key is absent. -/
def cacheLookup : Cache → String → Option PyVal
  | [], _ => none
  | (k, v) :: rest, key => if k = key then some v else cacheLookup rest key

/-- Modelled from the spec: `CachedEngine._save_cache` — an insert where
an overwrite is permitted; the newest entry for a key shadows older ones. -/
def cacheStore (c : Cache) (k : String) (v : PyVal) : Cache :=
  (k, v) :: c

/-- Per-call mutable state of the embedding: cache contents and the number
of network invocations performed so far. -/
structure RunState where
  cache : Cache
  networkCalls : Nat

/-- Resolution of the system prompt argument,
`system_prompt if system_prompt else self.system_prompt`: a Python None or
an empty (falsy) string both fall back to the engine default. -/
def sysPromptArg (eng : Engine) : Option String → String
  | none => eng.system_prompt
  | some s => if s = "" then eng.system_prompt else s

/-- The cache key computed by `_generate_text`:
`cache_key = sys_prompt_arg + prompt`. -/
def text_cache_key (eng : Engine) (system_prompt : Option String) (prompt : String) : String :=
  sysPromptArg eng system_prompt ++ prompt

/-- The cache key computed by `_generate_multimodal`:
`cache_key = sys_prompt_arg + json.dumps(formatted_content)`. -/
def multimodal_cache_key (eng : Engine) (system_prompt : Option String)
    (formatted : List MsgPart) : String :=
  sysPromptArg eng system_prompt ++ jsonDumpsParts formatted

/-- Embedding of `ChatTGI._generate_text`. The cache is consulted under
`text_cache_key` before anything else; on a miss, a present
`response_format` first reaches the message construction
`prompt + "\x5cn\x5cnJSON response format: " + response_format` (which raises
TypeError for every modelled response format), then the wire translation,
the remote call, the parse (`model_validate_json` for a pydantic schema,
`json.loads` otherwise), and only a fully successful call stores its
result under the same key. -/
def generate_text (eng : Engine) (env : Env) (prompt : String)
    (system_prompt : Option String) (response_format : Option RespFormat)
    (st : RunState) : Except PyExn PyVal × RunState :=
  let cache_key := text_cache_key eng system_prompt prompt
  match (if eng.enable_cache then cacheLookup st.cache cache_key else none) with
  | some cached => (.ok cached, st)
  | none =>
    match response_format with
    | some rf =>
      match addRespFormat (.strV (prompt ++ "\n\nJSON response format: ")) rf with
      | .error e => (.error e, st)
      | .ok _userContent =>
        match translate_response_format (some rf) with
        | .error e => (.error e, st)
        | .ok _wire =>
          let st1 : RunState := { st with networkCalls := st.networkCalls + 1 }
          match env.remote st.networkCalls with
          | .raisesExn e => (.error e, st1)
          | .success content =>
            let parsed : Except PyExn PyVal :=
              match rf with
              | .typed t => (t.validate content).map (PyVal.typedObj t.name)
              | _ => (env.jsonLoads content).map PyVal.json
            match parsed with
            | .error e => (.error e, st1)
            | .ok resp =>
              let st2 :=
                if eng.enable_cache then
                  { st1 with cache := cacheStore st1.cache cache_key resp }
                else st1
              (.ok resp, st2)
    | none =>
      let st1 : RunState := { st with networkCalls := st.networkCalls + 1 }
      match env.remote st.networkCalls with
      | .raisesExn e => (.error e, st1)
      | .success content =>
        let resp := PyVal.str content
        let st2 :=
          if eng.enable_cache then
            { st1 with cache := cacheStore st1.cache cache_key resp }
          else st1
        (.ok resp, st2)

/-- Embedding of `ChatTGI._generate_multimodal`. Content is formatted
first (raising ValueError on an unsupported item); the cache is consulted
under `multimodal_cache_key`; on a miss, a present `response_format`
reaches `formatted_content + "\x5cn\x5cnJSON response format: " + response_format`,
whose leftmost list-plus-str application raises TypeError before the
request is sent; without a response format, the remote call is made and a
successful payload is stored under the same key. -/
def generate_multimodal (eng : Engine) (env : Env) (content : List ContentItem)
    (system_prompt : Option String) (response_format : Option RespFormat)
    (st : RunState) : Except PyExn PyVal × RunState :=
  match _format_content content with
  | .error e => (.error e, st)
  | .ok formatted =>
    let cache_key := multimodal_cache_key eng system_prompt formatted
    match (if eng.enable_cache then cacheLookup st.cache cache_key else none) with
    | some cached => (.ok cached, st)
    | none =>
      match response_format with
      | some rf =>
        match pyAdd (.listV formatted) (.strV "\n\nJSON response format: ") with
        | .error e => (.error e, st)
        | .ok inner =>
          match addRespFormat inner rf with
          | .error e => (.error e, st)
          | .ok _userContent =>
            match translate_response_format (some rf) with
            | .error e => (.error e, st)
            | .ok _wire =>
              let st1 : RunState := { st with networkCalls := st.networkCalls + 1 }
              match env.remote st.networkCalls with
              | .raisesExn e => (.error e, st1)
              | .success payload =>
                let parsed : Except PyExn PyVal :=
                  match rf with
                  | .typed t => (t.validate payload).map (PyVal.typedObj t.name)
                  | _ => (env.jsonLoads payload).map PyVal.json
                match parsed with
                | .error e => (.error e, st1)
                | .ok resp =>
                  let st2 :=
                    if eng.enable_cache then
                      { st1 with cache := cacheStore st1.cache cache_key resp }
                    else st1
                  (.ok resp, st2)
      | none =>
        let st1 : RunState := { st with networkCalls := st.networkCalls + 1 }
        match env.remote st.networkCalls with
        | .raisesExn e => (.error e, st1)
        | .success payload =>
          let resp := PyVal.str payload
          let st2 :=
            if eng.enable_cache then
              { st1 with cache := cacheStore st1.cache cache_key resp }
            else st1
          (.ok resp, st2)

/-- The `content` argument of `generate`: a str, a list of content items,
or a value of any other Python type (for which both isinstance checks
fail). -/
inductive PyContent
  | strC (s : String)
  | listC (items : List ContentItem)
  | otherC (typeName : String)

/-- The `details` field of the error dicts: token-usage accounting for the
token-limit handler, the exception args tuple for the other handlers. -/
inductive ErrDetails
  | tokenUsage (completion_tokens prompt_tokens total_tokens : Nat)
  | args (a : List String)
deriving DecidableEq, Repr

/-- Value returned by one call of `generate`: the payload of a successful
branch, one of the error dicts built by the except clauses, or the
implicit Python None of the fall-through when `content` has an unexpected
type. -/
inductive GenResult
  | value (v : PyVal)
  | errorDict (error : String) (message : String) (details : ErrDetails)
  | noneResult

/-- The except clauses of `ChatTGI.generate`, in source order:
`openai.LengthFinishReasonError` yields the token-limit error dict with
usage accounting, `openai.RateLimitError` yields the rate-limit error
dict, and the blanket `except Exception` yields a generic error dict
keyed by the exception type name. Every handler returns a value, so no
exception escapes `generate`. -/
def handle_exn : PyExn → GenResult
  | .lengthFinishReasonError msg c p t =>
      .errorDict "token_limit_exceeded" msg (.tokenUsage c p t)
  | .rateLimitError msg => .errorDict "rate_limit" msg (.args [msg])
  | e => .errorDict (exnName e) (exnMsg e) (.args [exnMsg e])

/-- The try block of `ChatTGI.generate`: a str dispatches to
`_generate_text`; a list dispatches to `_generate_multimodal` after the
multimodal-capability check (raising NotImplementedError when the engine
is not multimodal); any other content type falls through both isinstance
checks and the method returns Python None. -/
def generate_try (eng : Engine) (env : Env) (content : PyContent)
    (system_prompt : Option String) (response_format : Option RespFormat)
    (st : RunState) : Except PyExn (Option PyVal) × RunState :=
  match content with
  | .strC s =>
      let r := generate_text eng env s system_prompt response_format st
      (r.1.map some, r.2)
  | .listC items =>
      if eng.is_multimodal then
        let r := generate_multimodal eng env items system_prompt response_format st
        (r.1.map some, r.2)
      else
        (.error (.notImplementedError
          "Multimodal generation is only supported for GPT-4 models."), st)
  | .otherC _ => (.ok none, st)

/-- One attempt of `ChatTGI.generate` as tenacity sees it: the try block
wrapped in the except clauses. Each handler returns an error dict as the
value of the call, so the attempt never raises. -/
def generate_body (eng : Engine) (env : Env) (content : PyContent)
    (system_prompt : Option String) (response_format : Option RespFormat)
    (st : RunState) : Except PyExn GenResult × RunState :=
  match generate_try eng env content system_prompt response_format st with
  | (.ok (some v), st1) => (.ok (.value v), st1)
  | (.ok none, st1) => (.ok (.noneResult), st1)
  | (.error e, st1) => (.ok (handle_exn e), st1)

/-- The retry loop of the tenacity decorator
`@retry(wait=wait_random_exponential(min=1, max=5), stop=stop_after_attempt(5))`:
run the wrapped call; a raised exception is retried after a randomized
backoff delay (the delay has no semantic effect in the embedding) until
the attempt ceiling; a returned value ends the loop. The result carries
the outcome, the final state, and the number of attempts made. -/
def tenacityRetry (body : RunState → Except PyExn GenResult × RunState) :
    Nat → RunState → Nat → Except PyExn GenResult × RunState × Nat
  | 0, st, made => (.error (.valueError "RetryError"), st, made)
  | n + 1, st, made =>
    match body st with
    | (.ok r, st1) => (.ok r, st1, made + 1)
    | (.error e, st1) =>
      match n with
      | 0 => (.error e, st1, made + 1)
      | m + 1 => tenacityRetry body (m + 1) st1 (made + 1)

/-- Embedding of the public entry point `ChatTGI.generate`: the decorated
method, i.e. the try/except body run under the tenacity retry policy with
an attempt ceiling of five. -/
def generate (eng : Engine) (env : Env) (content : PyContent)
    (system_prompt : Option String) (response_format : Option RespFormat)
    (st : RunState) : Except PyExn GenResult × RunState × Nat :=
  tenacityRetry (generate_body eng env content system_prompt response_format) 5 st 0

/-- The cache key that a call of `generate` computes for its inputs: the
text key for str content, the multimodal key for list content whose
formatting succeeds, and no key otherwise. -/
def requestKey (eng : Engine) (system_prompt : Option String) :
    PyContent → Except PyExn (Option String)
  | .strC s => .ok (some (text_cache_key eng system_prompt s))
  | .listC items =>
      (_format_content items).map
        (fun ps => some (multimodal_cache_key eng system_prompt ps))
  | .otherC _ => .ok none

/-- No attempt of `generate` raises: every except clause returns a value. -/
lemma generate_body_isOk (eng : Engine) (env : Env) (c : PyContent)
    (sp : Option String) (rf : Option RespFormat) (st : RunState) :
    ∃ g st1, generate_body eng env c sp rf st = (Except.ok g, st1) := by
  unfold generate_body
  rcases generate_try eng env c sp rf st with ⟨e | o, st1⟩
  · exact ⟨_, _, rfl⟩
  · cases o
    · exact ⟨_, _, rfl⟩
    · exact ⟨_, _, rfl⟩

lemma generate_eq (eng : Engine) (env : Env) (c : PyContent)
    (sp : Option String) (rf : Option RespFormat) (st : RunState) :
    generate eng env c sp rf st =
      ((generate_body eng env c sp rf st).1,
       (generate_body eng env c sp rf st).2, 1) := by
  obtain ⟨g, st1, h⟩ := generate_body_isOk eng env c sp rf st
  simp [generate, tenacityRetry, h]

lemma generate_text_store (eng : Engine) (env : Env) (prompt : String)
    (sp : Option String) (rf : Option RespFormat) (st : RunState) :
    (generate_text eng env prompt sp rf st).2.cache = st.cache ∨
      ∃ raw, env.remote st.networkCalls = .success raw ∧ eng.enable_cache = true ∧
        generate_text eng env prompt sp rf st =
          (.ok (.str raw),
           ⟨cacheStore st.cache (text_cache_key eng sp prompt) (.str raw),
            st.networkCalls + 1⟩) := by
  rcases hl : (if eng.enable_cache then cacheLookup st.cache (text_cache_key eng sp prompt)
      else none) with _ | v
  · rcases rf with _ | rf
    · rcases hr : env.remote st.networkCalls with payload | e
      · rcases hc : eng.enable_cache
        · left; simp [generate_text, hl, hr, hc]
        · right
          refine ⟨payload, rfl, rfl, ?_⟩
          simp only [hc, if_true] at hl
          simp [generate_text, hl, hr, hc]
      · left; simp [generate_text, hl, hr]
    · left; simp [generate_text, addRespFormat, hl]
  · left; simp [generate_text, hl]

lemma generate_multimodal_store (eng : Engine) (env : Env) (items : List ContentItem)
    (sp : Option String) (rf : Option RespFormat) (st : RunState) :
    (generate_multimodal eng env items sp rf st).2.cache = st.cache ∨
      ∃ parts raw, _format_content items = .ok parts ∧
        env.remote st.networkCalls = .success raw ∧ eng.enable_cache = true ∧
        generate_multimodal eng env items sp rf st =
          (.ok (.str raw),
           ⟨cacheStore st.cache (multimodal_cache_key eng sp parts) (.str raw),
            st.networkCalls + 1⟩) := by
  rcases hf : _format_content items with e | parts
  · left; simp [generate_multimodal, hf]
  · rcases hl : (if eng.enable_cache then cacheLookup st.cache (multimodal_cache_key eng sp parts)
        else none) with _ | v
    · rcases rf with _ | rf
      · rcases hr : env.remote st.networkCalls with payload | e
        · rcases hc : eng.enable_cache
          · left; simp [generate_multimodal, hf, hl, hr, hc]
          · right
            refine ⟨parts, payload, rfl, rfl, rfl, ?_⟩
            simp only [hc, if_true] at hl
            simp [generate_multimodal, hf, hl, hr, hc]
        · left; simp [generate_multimodal, hf, hl, hr]
      · left; simp [generate_multimodal, pyAdd, hf, hl]
    · left; simp [generate_multimodal, hf, hl]

/-- Discriminator on generate outcomes: a successful payload value, as
opposed to an error dict, the Python None fall-through, or a raised
exception. -/
def isSuccessValue : Except PyExn GenResult → Bool
  | .ok (.value _) => true
  | _ => false

/-- How `generate` wraps the outcome of its dispatched branch: a returned
payload becomes the value result, a raised exception is converted by the
except clauses into an error dict. -/
def wrapOutcome : Except PyExn PyVal → Except PyExn GenResult
  | .ok v => .ok (.value v)
  | .error e => .ok (handle_exn e)

lemma generate_body_strC (eng : Engine) (env : Env) (s : String)
    (sp : Option String) (rf : Option RespFormat) (st : RunState) :
    generate_body eng env (.strC s) sp rf st =
      (wrapOutcome (generate_text eng env s sp rf st).1,
       (generate_text eng env s sp rf st).2) := by
  unfold generate_body generate_try
  rcases h : generate_text eng env s sp rf st with ⟨e | v, st1⟩ <;>
    simp [h, wrapOutcome, Except.map]

lemma generate_body_listC (eng : Engine) (env : Env) (items : List ContentItem)
    (sp : Option String) (rf : Option RespFormat) (st : RunState)
    (hm : eng.is_multimodal = true) :
    generate_body eng env (.listC items) sp rf st =
      (wrapOutcome (generate_multimodal eng env items sp rf st).1,
       (generate_multimodal eng env items sp rf st).2) := by
  unfold generate_body generate_try
  rcases h : generate_multimodal eng env items sp rf st with ⟨e | v, st1⟩ <;>
    simp [h, hm, wrapOutcome, Except.map]

lemma handle_exn_isErrorDict (e : PyExn) :
    ∃ kind msg det, handle_exn e = .errorDict kind msg det := by
  cases e <;> exact ⟨_, _, _, rfl⟩

/-- A cache-enabled, text-only engine used by the concrete scenarios. -/
def engCached : Engine := ⟨"S", "model", false, true⟩

/-- A cache-enabled, multimodal-capable engine used by the concrete
scenarios. -/
def engCachedMM : Engine := ⟨"S", "model", true, true⟩

/-- A cache-disabled, multimodal-capable engine used by the concrete
scenarios. -/
def engPlain : Engine := ⟨"S", "model", true, false⟩

/-- An environment whose remote endpoint always answers with the payload
string RAW, and whose json parser rejects everything. -/
def envRaw : Env :=
  ⟨fun _ => .success "RAW", fun _ => .error (.jsonDecodeError "Expecting value")⟩

/-- An environment whose remote endpoint always raises a rate-limit
error. -/
def envRateLimited : Env :=
  ⟨fun _ => .raisesExn (.rateLimitError "429"),
   fun _ => .error (.jsonDecodeError "Expecting value")⟩

/-- An environment whose remote endpoint always raises the token-limit
error with usage accounting of 7 completion, 11 prompt, 18 total tokens. -/
def envTokenLimited : Env :=
  ⟨fun _ => .raisesExn (.lengthFinishReasonError "length limit reached" 7 11 18),
   fun _ => .error (.jsonDecodeError "Expecting value")⟩

/-- C10: a generate call whose content is neither a str nor a list returns
Python None — not an error dict and not a raised exception — leaves the
state untouched (no network invocation, no cache write), and makes a
single attempt. -/
theorem C10_thm (eng : Engine) (env : Env) (tn : String)
    (sp : Option String) (rf : Option RespFormat) (st : RunState) :
    generate eng env (.otherC tn) sp rf st = (.ok GenResult.noneResult, st, 1) := rfl

/-- C4: multimodal (list) content on an engine with multimodal capability
disabled yields the NotImplementedError error dict, with the state
untouched (zero network invocations, no cache write) and a single attempt
(the failure is not retried). -/
theorem C4_thm (eng : Engine) (env : Env) (items : List ContentItem)
    (sp : Option String) (rf : Option RespFormat) (st : RunState)
    (h : eng.is_multimodal = false) :
    generate eng env (.listC items) sp rf st =
      (.ok (.errorDict "NotImplementedError"
        "Multimodal generation is only supported for GPT-4 models."
        (.args ["Multimodal generation is only supported for GPT-4 models."])),
       st, 1) := by
  rw [generate_eq]
  simp [generate_body, generate_try, h, handle_exn, exnName, exnMsg]

theorem C4_witness :
    engCached.is_multimodal = false ∧
    generate engCached envRaw (.listC [.text "hi"]) none none ⟨[], 0⟩ =
      (.ok (.errorDict "NotImplementedError"
        "Multimodal generation is only supported for GPT-4 models."
        (.args ["Multimodal generation is only supported for GPT-4 models."])),
       ⟨[], 0⟩, 1) :=
  ⟨rfl, C4_thm engCached envRaw [.text "hi"] none none ⟨[], 0⟩ rfl⟩

/-- C2: with a remote endpoint that always raises a rate-limit error, a
text generate call performs exactly one network invocation and one
attempt, returning the rate-limit error dict from the first attempt: the
except clause inside the method catches the exception, so the tenacity
retry policy (attempt ceiling five) never observes a raised exception and
never re-invokes. This contradicts the claimed exactly-five-attempts
behaviour (and the intent of the retry decorator on the method). -/
theorem C2_code_bug :
    generate engPlain envRateLimited (.strC "hello") none none ⟨[], 0⟩ =
      (.ok (.errorDict "rate_limit" "429" (.args ["429"])), ⟨[], 1⟩, 1) := rfl

/-- C5: any generate call — text or multimodal — whose remote invocation
raises the token-limit error yields the distinct token_limit_exceeded
error dict carrying completion, prompt and total token counts; the cache
is not written and only one attempt is made (the failure is not retried).
The schema argument is None because a supplied schema makes the message
construction raise before the remote is ever reached. -/
theorem C5_thm (eng : Engine) (env : Env) (content : PyContent)
    (sp : Option String) (st : RunState) (k : String)
    (msg : String) (c p t : Nat)
    (him : ∀ items, content = .listC items → eng.is_multimodal = true)
    (hk : requestKey eng sp content = .ok (some k))
    (hmiss : (if eng.enable_cache then cacheLookup st.cache k else none) = none)
    (hr : env.remote st.networkCalls =
        .raisesExn (.lengthFinishReasonError msg c p t)) :
    generate eng env content sp none st =
      (.ok (.errorDict "token_limit_exceeded" msg (.tokenUsage c p t)),
       ⟨st.cache, st.networkCalls + 1⟩, 1) := by
  rw [generate_eq]
  cases content with
  | strC s =>
    simp only [requestKey, Except.ok.injEq, Option.some.injEq] at hk
    subst hk
    simp [generate_body, generate_try, generate_text, hmiss, hr, handle_exn,
      Except.map]
  | listC items =>
    have hm := him items rfl
    rcases hf : _format_content items with e | parts
    · simp [requestKey, hf, Except.map] at hk
    · simp only [requestKey, hf, Except.map, Except.ok.injEq, Option.some.injEq] at hk
      subst hk
      rw [generate_body_listC eng env items sp none st hm]
      simp [generate_multimodal, hf, hmiss, hr, handle_exn, wrapOutcome,
        Except.map]
  | otherC tn => simp [requestKey] at hk

theorem C5_witness :
    (requestKey engPlain none (.strC "q")
        = .ok (some (text_cache_key engPlain none "q")) ∧
      (if engPlain.enable_cache then
        cacheLookup ([] : Cache) (text_cache_key engPlain none "q") else none) = none ∧
      envTokenLimited.remote 0 =
        .raisesExn (.lengthFinishReasonError "length limit reached" 7 11 18) ∧
      generate engPlain envTokenLimited (.strC "q") none none ⟨[], 0⟩ =
        (.ok (.errorDict "token_limit_exceeded" "length limit reached"
          (.tokenUsage 7 11 18)), ⟨[], 1⟩, 1))
    ∧ (engCachedMM.is_multimodal = true ∧
      requestKey engCachedMM none (.listC [ContentItem.text "a"])
        = .ok (some (multimodal_cache_key engCachedMM none [MsgPart.textPart "a"])) ∧
      (if engCachedMM.enable_cache then
        cacheLookup ([] : Cache)
          (multimodal_cache_key engCachedMM none [MsgPart.textPart "a"])
      else none) = none ∧
      generate engCachedMM envTokenLimited (.listC [ContentItem.text "a"]) none
        none ⟨[], 0⟩ =
        (.ok (.errorDict "token_limit_exceeded" "length limit reached"
          (.tokenUsage 7 11 18)), ⟨[], 1⟩, 1)) :=
  ⟨⟨rfl, rfl, rfl,
    C5_thm engPlain envTokenLimited (.strC "q") none ⟨[], 0⟩
      (text_cache_key engPlain none "q") "length limit reached" 7 11 18
      (fun _ h => nomatch h) rfl rfl rfl⟩,
   ⟨rfl, rfl, rfl,
    C5_thm engCachedMM envTokenLimited (.listC [ContentItem.text "a"]) none ⟨[], 0⟩
      (multimodal_cache_key engCachedMM none [MsgPart.textPart "a"])
      "length limit reached" 7 11 18
      (fun _ _ => rfl) rfl rfl rfl⟩⟩

/-- C1 counterexample: two logically distinct requests that differ only in
the structured-output schema share the cache key. The first call (no
schema) stores its raw payload under `text_cache_key` — a key computed
from the system prompt and the prompt alone — and the second call, issued
with a schema, hits that very entry: it returns the cached value with the
state unchanged (no network invocation), showing the schema never entered
the key. -/
theorem C1_counterexample :
    (generate engCached envRaw (.strC "q") none none ⟨[], 0⟩).2.1.cache
        = [(text_cache_key engCached none "q", PyVal.str "RAW")]
    ∧ generate engCached envRaw (.strC "q") none
        (some (.dyn (.obj [("final_answer", .str "boolean")])))
        (generate engCached envRaw (.strC "q") none none ⟨[], 0⟩).2.1
      = (.ok (.value (.str "RAW")),
         (generate engCached envRaw (.strC "q") none none ⟨[], 0⟩).2.1, 1) :=
  ⟨rfl, rfl⟩

/-- C1 amended: the cache key is derived from the system prompt and the
content only — the schema descriptor is not an input of the key — so with
caching enabled, a cache entry under the key of a (system prompt, content)
pair is returned identically for every schema argument: the behaviour of
generate on such a hit does not depend on the schema at all. -/
theorem C1_thm (eng : Engine) (env : Env) (content : PyContent)
    (sp : Option String) (rf1 rf2 : Option RespFormat) (st : RunState)
    (k : String) (v : PyVal)
    (him : ∀ items, content = .listC items → eng.is_multimodal = true)
    (hc : eng.enable_cache = true)
    (hk : requestKey eng sp content = .ok (some k))
    (hv : cacheLookup st.cache k = some v) :
    generate eng env content sp rf1 st = (.ok (.value v), st, 1) ∧
    generate eng env content sp rf1 st = generate eng env content sp rf2 st := by
  have main : ∀ rf : Option RespFormat,
      generate eng env content sp rf st = (.ok (.value v), st, 1) := by
    intro rf
    rw [generate_eq]
    cases content with
    | strC s =>
      simp only [requestKey, Except.ok.injEq, Option.some.injEq] at hk
      subst hk
      simp [generate_body, generate_try, generate_text, hc, hv, Except.map]
    | listC items =>
      have hm := him items rfl
      rcases hf : _format_content items with e | parts
      · simp [requestKey, hf, Except.map] at hk
      · simp only [requestKey, hf, Except.map, Except.ok.injEq, Option.some.injEq] at hk
        subst hk
        simp [generate_body, generate_try, generate_multimodal, hm, hf, hc, hv, Except.map]
    | otherC tn => simp [requestKey] at hk
  exact ⟨main rf1, by rw [main rf1, main rf2]⟩

theorem C1_witness :
    engCached.enable_cache = true ∧
    requestKey engCached none (.strC "q") = .ok (some "Sq") ∧
    cacheLookup [("Sq", PyVal.str "RAW")] "Sq" = some (PyVal.str "RAW") ∧
    (generate engCached envRaw (.strC "q") none none ⟨[("Sq", .str "RAW")], 3⟩ =
        (.ok (.value (.str "RAW")), ⟨[("Sq", .str "RAW")], 3⟩, 1) ∧
      generate engCached envRaw (.strC "q") none none ⟨[("Sq", .str "RAW")], 3⟩ =
        generate engCached envRaw (.strC "q") none (some (.dyn .null))
          ⟨[("Sq", .str "RAW")], 3⟩) :=
  ⟨rfl, rfl, rfl,
   C1_thm engCached envRaw (.strC "q") none none (some (.dyn .null))
     ⟨[("Sq", .str "RAW")], 3⟩ "Sq" (.str "RAW")
     (fun _ h => nomatch h) rfl rfl rfl⟩

/-- C3: a generate call whose outcome is not a successful payload value
(an error dict of any kind, or the Python None fall-through) leaves the
cache exactly as it was: no entry is created or overwritten. -/
theorem C3_thm (eng : Engine) (env : Env) (content : PyContent)
    (sp : Option String) (rf : Option RespFormat) (st : RunState)
    (h : isSuccessValue (generate eng env content sp rf st).1 = false) :
    (generate eng env content sp rf st).2.1.cache = st.cache := by
  rw [generate_eq] at h ⊢
  cases content with
  | strC s =>
    rw [generate_body_strC] at h ⊢
    rcases generate_text_store eng env s sp rf st with hcc | ⟨raw, hr, hc, heq⟩
    · exact hcc
    · rw [heq] at h
      simp [wrapOutcome, isSuccessValue] at h
  | listC items =>
    rcases hm : eng.is_multimodal with _ | _
    · simp [generate_body, generate_try, hm]
    · rw [generate_body_listC eng env items sp rf st hm] at h ⊢
      rcases generate_multimodal_store eng env items sp rf st with
        hcc | ⟨parts, raw, hf, hr, hc, heq⟩
      · exact hcc
      · rw [heq] at h
        simp [wrapOutcome, isSuccessValue] at h
  | otherC tn => simp [generate_body, generate_try]

theorem C3_witness :
    isSuccessValue (generate engPlain envRateLimited (.strC "q") none none ⟨[], 0⟩).1
      = false ∧
    (generate engPlain envRateLimited (.strC "q") none none ⟨[], 0⟩).2.1.cache = [] :=
  ⟨rfl, C3_thm engPlain envRateLimited (.strC "q") none none ⟨[], 0⟩ rfl⟩

/-- C6: whatever a generate call does, its only possible cache effect is
to push one entry whose key is the request fingerprint and whose value is
the raw payload string that the remote endpoint returned on the network
invocation of this call — in which case the call also returned that raw
payload as its successful value. In particular no parsed object and no
failed response is ever stored (the structured-output branches fail before
their store statement is reachable). -/
theorem C6_thm (eng : Engine) (env : Env) (content : PyContent)
    (sp : Option String) (rf : Option RespFormat) (st : RunState) :
    (generate eng env content sp rf st).2.1.cache = st.cache ∨
      ∃ k raw, requestKey eng sp content = .ok (some k) ∧
        env.remote st.networkCalls = .success raw ∧
        (generate eng env content sp rf st).1 = .ok (.value (.str raw)) ∧
        (generate eng env content sp rf st).2.1.cache
          = cacheStore st.cache k (PyVal.str raw) := by
  rw [generate_eq]
  cases content with
  | strC s =>
    rw [generate_body_strC]
    rcases generate_text_store eng env s sp rf st with hcc | ⟨raw, hr, hc, heq⟩
    · left; exact hcc
    · right
      exact ⟨text_cache_key eng sp s, raw, rfl, hr,
        by rw [heq]; rfl, by rw [heq]⟩
  | listC items =>
    rcases hm : eng.is_multimodal with _ | _
    · left; simp [generate_body, generate_try, hm]
    · rw [generate_body_listC eng env items sp rf st hm]
      rcases generate_multimodal_store eng env items sp rf st with
        hcc | ⟨parts, raw, hf, hr, hc, heq⟩
      · left; exact hcc
      · right
        exact ⟨multimodal_cache_key eng sp parts, raw,
          by simp [requestKey, hf, Except.map], hr,
          by rw [heq]; rfl, by rw [heq]⟩
  | otherC tn => left; simp [generate_body, generate_try]

lemma format_ok_map (items : List ContentItem) (parts : List MsgPart)
    (h : _format_content items = .ok parts) :
    items.map formattedPart = parts.map some := by
  induction items generalizing parts with
  | nil =>
    simp only [_format_content, Except.ok.injEq] at h
    subst h
    rfl
  | cons i rest ih =>
    cases i with
    | text s =>
      rcases hf : _format_content rest with e | ps
      · rw [_format_content, hf] at h
        simp [Except.map] at h
      · rw [_format_content, hf] at h
        simp only [Except.map, Except.ok.injEq] at h
        subst h
        simp [formattedPart, ih ps hf]
    | image bytes =>
      rcases hf : _format_content rest with e | ps
      · rw [_format_content, hf] at h
        simp [Except.map] at h
      · rw [_format_content, hf] at h
        simp only [Except.map, Except.ok.injEq] at h
        subst h
        simp [formattedPart, ih ps hf]
    | other tn =>
      simp [_format_content] at h

lemma format_err_of_mem (items : List ContentItem) (tn : String)
    (h : ContentItem.other tn ∈ items) :
    ∃ msg, _format_content items = .error (.valueError msg) := by
  induction items with
  | nil => cases h
  | cons i rest ih =>
    cases i with
    | text s =>
      rcases List.mem_cons.mp h with h1 | h2
      · cases h1
      · obtain ⟨msg, hmsg⟩ := ih h2
        exact ⟨msg, by rw [_format_content, hmsg]; rfl⟩
    | image bytes =>
      rcases List.mem_cons.mp h with h1 | h2
      · cases h1
      · obtain ⟨msg, hmsg⟩ := ih h2
        exact ⟨msg, by rw [_format_content, hmsg]; rfl⟩
    | other tn2 =>
      exact ⟨"Unsupported input type: " ++ tn2, rfl⟩

/-- C7: content formatting is order- and length-preserving — a formatted
list is exactly the item-wise image under `formattedPart`, which
base64-encodes each image into a jpeg data-url envelope and passes text
through unchanged — and a list containing an item of an unsupported type
fails with a ValueError at formatting time: a multimodal generate call on
such a list returns the ValueError error dict with the state untouched
(zero network invocations). -/
theorem C7_thm (items : List ContentItem) :
    (∀ parts, _format_content items = .ok parts →
      items.map formattedPart = parts.map some)
    ∧ (∀ tn, ContentItem.other tn ∈ items →
        ∃ msg, _format_content items = .error (.valueError msg))
    ∧ (∀ (eng : Engine) (env : Env) (sp : Option String)
        (rf : Option RespFormat) (st : RunState) (tn : String),
        eng.is_multimodal = true → ContentItem.other tn ∈ items →
        ∃ msg, generate eng env (.listC items) sp rf st =
          (.ok (.errorDict "ValueError" msg (.args [msg])), st, 1)) := by
  refine ⟨fun parts h => format_ok_map items parts h,
    fun tn h => format_err_of_mem items tn h, ?_⟩
  intro eng env sp rf st tn hm hmem
  obtain ⟨msg, hmsg⟩ := format_err_of_mem items tn hmem
  refine ⟨msg, ?_⟩
  rw [generate_eq, generate_body_listC eng env items sp rf st hm]
  simp [generate_multimodal, hmsg, wrapOutcome, handle_exn, exnName, exnMsg]

theorem C7_witness :
    ([ContentItem.text "a", ContentItem.image [104, 105], ContentItem.text "b"].map
        formattedPart
      = [MsgPart.textPart "a", MsgPart.imageUrlPart "data:image/jpeg;base64,aGk=",
         MsgPart.textPart "b"].map some)
    ∧ (∃ msg, _format_content [ContentItem.text "a", ContentItem.other "int"]
        = .error (.valueError msg))
    ∧ (∃ msg, generate engPlain envRaw
        (.listC [ContentItem.text "a", ContentItem.other "int"]) none none ⟨[], 0⟩ =
          (.ok (.errorDict "ValueError" msg (.args [msg])), ⟨[], 0⟩, 1)) :=
  ⟨(C7_thm [ContentItem.text "a", ContentItem.image [104, 105], ContentItem.text "b"]).1
      [MsgPart.textPart "a", MsgPart.imageUrlPart "data:image/jpeg;base64,aGk=",
       MsgPart.textPart "b"] rfl,
   (C7_thm [ContentItem.text "a", ContentItem.other "int"]).2.1 "int" (by simp),
   (C7_thm [ContentItem.text "a", ContentItem.other "int"]).2.2 engPlain envRaw
     none none ⟨[], 0⟩ "int" rfl (by simp)⟩

/-- C8: the schema-to-wire translation is total over its three-case
domain: no schema yields None (the request proceeds as free text), a
strongly-typed schema yields the json_object descriptor wrapping its
machine-readable shape, and a dict schema passes through unchanged. -/
theorem C8_thm (t : TypedSchema) (d : JsonV) :
    translate_response_format none = .ok none
    ∧ translate_response_format (some (.typed t))
        = .ok (some (.obj [("type", .str "json_object"), ("value", t.jsonSchema)]))
    ∧ translate_response_format (some (.dyn d)) = .ok (some d) :=
  ⟨rfl, rfl, rfl⟩

/-- C9: a multimodal generate call with a structured-output schema, on a
multimodal-capable engine and with no cache hit, always returns an error
dict with the state untouched (no network invocation): the outbound user
message concatenates the formatted-parts list with a string, which raises
TypeError before the request can be sent, so a successful structured
response is impossible on this path. -/
theorem C9_thm (eng : Engine) (env : Env) (items : List ContentItem)
    (sp : Option String) (rf : RespFormat) (st : RunState)
    (hm : eng.is_multimodal = true)
    (hmiss : ∀ parts, _format_content items = .ok parts →
      (if eng.enable_cache then
        cacheLookup st.cache (multimodal_cache_key eng sp parts) else none) = none) :
    ∃ kind msg det, generate eng env (.listC items) sp (some rf) st =
      (.ok (.errorDict kind msg det), st, 1) := by
  have key : ∃ e, generate eng env (.listC items) sp (some rf) st =
      (.ok (handle_exn e), st, 1) := by
    rcases hf : _format_content items with e | parts
    · refine ⟨e, ?_⟩
      rw [generate_eq, generate_body_listC eng env items sp (some rf) st hm]
      simp [generate_multimodal, hf, wrapOutcome]
    · have hl := hmiss parts hf
      refine ⟨.typeError "can only concatenate list (not str) to list", ?_⟩
      rw [generate_eq, generate_body_listC eng env items sp (some rf) st hm]
      simp [generate_multimodal, pyAdd, hf, hl, wrapOutcome]
  obtain ⟨e, he⟩ := key
  obtain ⟨kind, msg, det, hd⟩ := handle_exn_isErrorDict e
  exact ⟨kind, msg, det, by rw [he, hd]⟩

theorem C9_witness :
    engCachedMM.is_multimodal = true ∧
    (∀ parts, _format_content [ContentItem.text "a"] = .ok parts →
      (if engCachedMM.enable_cache then
        cacheLookup ([] : Cache) (multimodal_cache_key engCachedMM none parts)
      else none) = none) ∧
    ∃ kind msg det,
      generate engCachedMM envRaw (.listC [ContentItem.text "a"]) none
        (some (.dyn (.obj []))) ⟨[], 0⟩ =
          (.ok (.errorDict kind msg det), ⟨[], 0⟩, 1) :=
  ⟨rfl,
   fun parts hp => by
     simp only [_format_content, Except.map, Except.ok.injEq] at hp
     subst hp
     rfl,
   C9_thm engCachedMM envRaw [ContentItem.text "a"] none (.dyn (.obj [])) ⟨[], 0⟩
     rfl
     (fun parts hp => by
       simp only [_format_content, Except.map, Except.ok.injEq] at hp
       subst hp
       rfl)⟩
